import Mathlib

/-
Verification of the Weather_API Flask application (src/main.py) against its
natural-language specification.

Shallow embedding notes:
- A per-station data file (TG_STAID######.txt) is modelled after pandas has
  read it with `skiprows=20`: a list of typed observation rows following the
  fixed upstream ECA format with columns
  " STAID", " SOUID", "    DATE", "   TG", " Q_TG"
  (the leading whitespace in the column names is part of the format and is
  documented in the source's module docstring). The textual CSV parsing done
  by pandas is external-library behaviour and is abstracted away.
- The file system is a map from path strings to parsed station files.
- Python `int()` on a path segment is modelled by `pythonInt` (optional sign
  followed by a nonempty digit run; whitespace stripping and underscore
  separators are not modelled since no claim exercises them).
- `f"TG_STAID{int(station):06d}.txt"` is modelled by `pad6` / `stationPath`.
- `pd.read_csv(..., parse_dates=["    DATE"])` turns the yyyymmdd integer of
  the DATE column into a calendar date (`parseYyyymmdd`); the comparison
  `df["    DATE"] == date` parses the request string once and compares full
  calendar dates, yielding no match when the request string does not parse
  (pandas equality against an unparseable string is elementwise False).
  Request strings follow the spec's `YYYY-MM-DD`-shaped grammar
  (`parseRequestDate`); pandas' wider tolerance of other date formats is
  not modelled.
- Numeric temperatures are modelled in ℚ; `squeeze()/10` on the selected
  TG series becomes `squeezeDiv` (scalar for one value, the whole series
  for several, an explicit null when empty).
- Python exceptions escaping a handler are modelled by `Except`; Flask maps
  any uncaught exception to an HTTP 500 server error (`httpStatus`).
-/

set_option autoImplicit false

namespace WeatherAPI

/-- Calendar date, the result of parsing a yyyymmdd integer or a request
string; equality is full year/month/day equality. -/
structure Date where
  year : Nat
  month : Nat
  day : Nat
deriving DecidableEq, Repr

/-- One observation row of a per-station data file, in the fixed upstream
column layout ` STAID, SOUID,    DATE,   TG, Q_TG`. `dateRaw` is the DATE
cell as stored (a yyyymmdd integer), `tg` the temperature in tenths of a
degree (with -9999 as the missing-value sentinel). -/
structure RawRow where
  staid : Int
  souid : Int
  dateRaw : Nat
  tg : Int
  q_tg : Int
deriving DecidableEq, Repr

/-- A cell value as it appears in a JSON record produced by
`DataFrame.to_dict(orient="records")`. -/
inductive Value where
  | vInt (i : Int)
  | vStr (s : List Char)
  | vDate (d : Date)
deriving DecidableEq, Repr

/-- The file system: maps a path to the parsed station file, when it exists. -/
def FileSystem : Type := String → Option (List RawRow)

/-- Python exceptions that can escape a handler of src/main.py. -/
inductive PyError where
  | valueError
  | fileNotFound
deriving DecidableEq, Repr

/-- Flask's translation of a handler outcome to an HTTP status: a returned
value is a 200, an uncaught exception becomes a 500 server error. -/
def httpStatus {α : Type} : Except PyError α → Nat
  | Except.error _ => 500
  | Except.ok _ => 200

/-- An HTTP status in the 4xx range, i.e. a client error. -/
def isClientError (s : Nat) : Bool := decide (400 ≤ s ∧ s < 500)

/-- Value of a decimal digit character, `none` for a non-digit. Models the
per-character acceptance of Python `int()`. -/
def digitVal (c : Char) : Option Nat :=
  if 48 ≤ c.toNat ∧ c.toNat ≤ 57 then some (c.toNat - 48) else none

/-- Left fold of a digit run onto an accumulator; fails at the first
non-digit character. -/
def parseNatAux : Option Nat → List Char → Option Nat
  | acc, [] => acc
  | some a, c :: cs =>
    match digitVal c with
    | some d => parseNatAux (some (10 * a + d)) cs
    | none => none
  | none, _ :: _ => none

/-- Parse a nonempty run of decimal digits as a natural number. -/
def parseNatChars (cs : List Char) : Option Nat :=
  match cs with
  | [] => none
  | _ :: _ => parseNatAux (some 0) cs

/-- Python `int()` on a string: an optional sign followed by a nonempty
digit run; any other input raises ValueError (here: `none`). -/
def pythonInt (cs : List Char) : Option Int :=
  match cs with
  | [] => none
  | c :: rest =>
    if c = '-' then (parseNatChars rest).map (fun n => -(n : Int))
    else if c = '+' then (parseNatChars rest).map (fun n => (n : Int))
    else (parseNatChars (c :: rest)).map (fun n => (n : Int))

/-- The character of a decimal digit. -/
def digitChar (d : Nat) : Char := Char.ofNat (48 + d)

/-- Fuel-driven decimal digit expansion of a natural number,
most-significant digit first. -/
def natCharsAux : Nat → Nat → List Char
  | 0, _ => []
  | fuel + 1, n =>
    if n = 0 then [] else natCharsAux fuel (n / 10) ++ [digitChar (n % 10)]

/-- Python `str()` of a natural number. -/
def natChars (n : Nat) : List Char :=
  if n = 0 then ['0'] else natCharsAux (n + 1) n

/-- Python `f"{i:06d}"`: the decimal representation of `i` zero-padded to a
minimum width of 6 characters, the sign counting toward the width. -/
def pad6 (i : Int) : List Char :=
  if i < 0 then
    '-' :: (List.replicate (5 - (natChars i.natAbs).length) '0' ++ natChars i.natAbs)
  else
    List.replicate (6 - (natChars i.natAbs).length) '0' ++ natChars i.natAbs

/-- The per-station data file path `f"TG_STAID{n:06d}.txt"` (the DATA_DIR
prefix, common to every path, is dropped). -/
def stationPath (n : Int) : String :=
  String.mk ("TG_STAID".toList ++ pad6 n ++ ".txt".toList)

/-- Split a character list at every '-' separator. -/
def splitDash : List Char → List (List Char)
  | [] => [[]]
  | c :: cs =>
    if c = '-' then [] :: splitDash cs
    else
      match splitDash cs with
      | [] => [[c]]
      | p :: ps => (c :: p) :: ps

/-- Parse a request date string of the spec's `YYYY-MM-DD` shape (each
component a nonempty digit run, month and day in calendar range) into a
calendar date; `none` when the string is not parseable as a calendar date.
Models the one-time parse pandas performs for `df["    DATE"] == date`. -/
def parseRequestDate (cs : List Char) : Option Date :=
  match splitDash cs with
  | [y, m, d] =>
    match parseNatChars y, parseNatChars m, parseNatChars d with
    | some yn, some mn, some dn =>
      if 1 ≤ mn ∧ mn ≤ 12 ∧ 1 ≤ dn ∧ dn ≤ 31 then some ⟨yn, mn, dn⟩ else none
    | _, _, _ => none
  | _ => none

/-- Calendar date of a stored yyyymmdd integer, as produced by
`pd.read_csv(..., parse_dates=["    DATE"])`. -/
def parseYyyymmdd (n : Nat) : Date :=
  ⟨n / 10000, n / 100 % 100, n % 100⟩

/-- The sentinel filter `df.loc[df["   TG"] != -9999]`. -/
def cleanRows (file : List RawRow) : List RawRow :=
  file.filter (fun r => decide (r.tg ≠ -9999))

/-- The date-equality predicate of `df["    DATE"] == date`: compares the
row's parsed calendar date against the parsed request date, elementwise
False when the request did not parse. -/
def dateMatch (reqD : Option Date) (r : RawRow) : Bool :=
  match reqD with
  | some d => decide (parseYyyymmdd r.dateRaw = d)
  | none => false

/-- The rows selected by the point lookup: sentinel rows dropped first,
then exact calendar-date equality, in file order. -/
def matchRows (file : List RawRow) (date : List Char) : List RawRow :=
  (cleanRows file).filter (dateMatch (parseRequestDate date))

/-- Tenths of a degree converted to degrees Celsius: the `/10` of the
source. -/
def celsius (v : Int) : ℚ := (v : ℚ) / 10

/-- The temperature field of the point-lookup response. -/
inductive TempValue where
  | null
  | scalar (q : ℚ)
  | series (qs : List ℚ)
deriving DecidableEq, Repr

/-- The `target.empty` check followed by `target.squeeze() / 10`: null for
an empty selection, a scalar for exactly one value, the whole series
(elementwise divided) when several values remain. -/
def squeezeDiv (vs : List Int) : TempValue :=
  match vs with
  | [] => TempValue.null
  | [v] => TempValue.scalar (celsius v)
  | vs => TempValue.series (vs.map celsius)

/-- The dictionary returned by the point-lookup handler. -/
structure PointResponse where
  station : List Char
  date : List Char
  temperature : TempValue
deriving DecidableEq, Repr

/-- Body of the point-lookup handler once the file is in hand. -/
def pointResponse (station date : List Char) (file : List RawRow) : PointResponse :=
  ⟨station, date, squeezeDiv ((matchRows file date).map (fun r => r.tg))⟩

/-- The common station-file resolution of all three handlers:
`int(station)` (ValueError on a non-numeric segment) followed by reading
`TG_STAID{:06d}.txt` (FileNotFoundError when the file does not exist). -/
def locate (fs : FileSystem) (station : List Char) : Except PyError (List RawRow) :=
  match pythonInt station with
  | none => Except.error PyError.valueError
  | some n =>
    match fs (stationPath n) with
    | none => Except.error PyError.fileNotFound
    | some file => Except.ok file

/-- Handler of GET /api/v1/station/date (function `data` of src/main.py). -/
def data (fs : FileSystem) (station date : List Char) : Except PyError PointResponse :=
  (locate fs station).map (pointResponse station date)

/-- One row of `df.to_dict(orient="records")` when the DATE column was
parsed as a datetime: keys are the literal upstream column names,
whitespace included. -/
def rowRecordParsed (r : RawRow) : List (String × Value) :=
  [(" STAID", Value.vInt r.staid), (" SOUID", Value.vInt r.souid),
   ("    DATE", Value.vDate (parseYyyymmdd r.dateRaw)),
   ("   TG", Value.vInt r.tg), (" Q_TG", Value.vInt r.q_tg)]

/-- Handler of GET /api/v1/station (function `all_data` of src/main.py). -/
def all_data (fs : FileSystem) (station : List Char) :
    Except PyError (List (List (String × Value))) :=
  (locate fs station).map (fun file => (cleanRows file).map rowRecordParsed)

/-- `s.startswith(p)` on strings modelled as character lists. -/
def strStartsWith : List Char → List Char → Bool
  | _, [] => true
  | [], _ :: _ => false
  | c :: cs, p :: ps => c = p && strStartsWith cs ps

/-- The rows selected by the annual dump: the DATE cell coerced to its
textual representation (`astype(str)`), then a pure string-prefix match
against the requested year string; no sentinel filtering. -/
def yearRows (file : List RawRow) (year : List Char) : List RawRow :=
  file.filter (fun r => strStartsWith (natChars r.dateRaw) year)

/-- One row of `df.to_dict(orient="records")` after the annual dump's
`astype(str)` on the DATE column: DATE is a string, nothing else changes. -/
def rowRecordStr (r : RawRow) : List (String × Value) :=
  [(" STAID", Value.vInt r.staid), (" SOUID", Value.vInt r.souid),
   ("    DATE", Value.vStr (natChars r.dateRaw)),
   ("   TG", Value.vInt r.tg), (" Q_TG", Value.vInt r.q_tg)]

/-- Handler of GET /api/v1/annual/station/year (function `yearly` of
src/main.py). -/
def yearly (fs : FileSystem) (station year : List Char) :
    Except PyError (List (List (String × Value))) :=
  (locate fs station).map (fun file => (yearRows file year).map rowRecordStr)

/-- The scalar values carried by a temperature result. -/
def tempList : TempValue → List ℚ
  | TempValue.null => []
  | TempValue.scalar q => [q]
  | TempValue.series qs => qs

/-! Concrete stations and file systems used to instantiate the theorems. -/

/-- A station file with three rows, one of them a sentinel row. -/
def fileW : List RawRow :=
  [⟨10, 100, 19981014, 110, 0⟩, ⟨10, 100, 19981015, 125, 0⟩, ⟨10, 100, 19981016, -9999, 9⟩]

/-- A file system holding `fileW` under station id 10. -/
def fsW : FileSystem := fun p => if p = "TG_STAID000010.txt" then some fileW else none

/-- A station file whose only row is a sentinel row. -/
def fileY : List RawRow := [⟨1, 1, 20000101, -9999, 9⟩]

/-- A file system holding `fileY` under station id 1. -/
def fsY : FileSystem := fun p => if p = stationPath 1 then some fileY else none

/-- A station file with two distinct non-sentinel rows for the same date. -/
def fileD : List RawRow := [⟨7, 1, 19990101, 100, 0⟩, ⟨7, 2, 19990101, 110, 0⟩]

/-- A file system holding `fileD` under station id 7. -/
def fsD : FileSystem := fun p => if p = stationPath 7 then some fileD else none

/-- A station file with a raw temperature of -99990 tenths. -/
def fileS : List RawRow := [⟨1, 1, 20000101, -99990, 0⟩]

/-- A file system holding `fileS` under station id 1. -/
def fsS : FileSystem := fun p => if p = stationPath 1 then some fileS else none

/-- A file system holding an empty station file under station id 999999. -/
def fs9 : FileSystem := fun p => if p = stationPath 999999 then some [] else none

/-! Helper lemmas about the embedding. -/

theorem locate_ok {fs : FileSystem} {station : List Char} {n : Int} {file : List RawRow}
    (h1 : pythonInt station = some n) (h2 : fs (stationPath n) = some file) :
    locate fs station = Except.ok file := by
  simp [locate, h1, h2]

theorem mem_cleanRows {file : List RawRow} {r : RawRow} :
    r ∈ cleanRows file ↔ r ∈ file ∧ r.tg ≠ -9999 := by
  simp [cleanRows, List.mem_filter]

theorem mem_matchRows {file : List RawRow} {date : List Char} {r : RawRow} :
    r ∈ matchRows file date ↔
      r ∈ file ∧ r.tg ≠ -9999 ∧ dateMatch (parseRequestDate date) r = true := by
  simp only [matchRows, cleanRows, List.mem_filter, decide_eq_true_eq]
  tauto

theorem matchRows_of_unparsed {file : List RawRow} {date : List Char}
    (h : parseRequestDate date = none) : matchRows file date = [] := by
  unfold matchRows
  rw [h]
  induction cleanRows file with
  | nil => rfl
  | cons a t ih => simp [List.filter, dateMatch, ih]

theorem squeezeDiv_of_two {vs : List Int} (h : 2 ≤ vs.length) :
    squeezeDiv vs = TempValue.series (vs.map celsius) := by
  match vs with
  | [] => simp at h
  | [v] => simp at h
  | a :: b :: t => rfl

theorem squeezeDiv_scalar_length {vs : List Int} {q : ℚ}
    (h : squeezeDiv vs = TempValue.scalar q) : vs.length = 1 := by
  match vs with
  | [] => simp [squeezeDiv] at h
  | [v] => rfl
  | a :: b :: t => simp [squeezeDiv] at h

theorem mem_tempList_squeezeDiv {vs : List Int} {q : ℚ}
    (h : q ∈ tempList (squeezeDiv vs)) : ∃ v ∈ vs, q = celsius v := by
  match vs with
  | [] => simp [squeezeDiv, tempList] at h
  | [v] =>
    simp [squeezeDiv, tempList] at h
    exact ⟨v, by simp, h⟩
  | a :: b :: t =>
    simp only [squeezeDiv, tempList, List.mem_map] at h
    obtain ⟨v, hv, hq⟩ := h
    exact ⟨v, hv, hq.symm⟩

/-! Claim theorems. -/

/-- Claim C1: for every station whose file exists and parses, the point
lookup drops the sentinel rows, selects rows by full calendar-date equality
with the requested date (so a request for 1998-10-1 does not match a stored
1998-10-15), and returns the requested station id, the requested date, and
either the single matching row's stored tenths-value divided by 10 or an
explicit null when zero rows match. -/
theorem point_lookup_exact_date (fs : FileSystem) (station date : List Char)
    (n : Int) (file : List RawRow)
    (h1 : pythonInt station = some n) (h2 : fs (stationPath n) = some file) :
    ∃ resp : PointResponse,
      data fs station date = Except.ok resp ∧
      resp.station = station ∧
      resp.date = date ∧
      (∀ r ∈ matchRows file date,
        r ∈ file ∧ r.tg ≠ -9999 ∧
        ∃ d, parseRequestDate date = some d ∧
          (parseYyyymmdd r.dateRaw).year = d.year ∧
          (parseYyyymmdd r.dateRaw).month = d.month ∧
          (parseYyyymmdd r.dateRaw).day = d.day) ∧
      (matchRows file date = [] → resp.temperature = TempValue.null) ∧
      (∀ r : RawRow, matchRows file date = [r] →
        resp.temperature = TempValue.scalar (celsius r.tg)) ∧
      (∀ r : RawRow, r.dateRaw = 19981015 →
        dateMatch (parseRequestDate ("1998-10-1".toList)) r = false) := by
  refine ⟨pointResponse station date file, ?_, rfl, rfl, ?_, ?_, ?_, ?_⟩
  · simp [data, Except.map, locate_ok h1 h2]
  · intro r hr
    rw [mem_matchRows] at hr
    obtain ⟨hf, hs, hd⟩ := hr
    refine ⟨hf, hs, ?_⟩
    cases hq : parseRequestDate date with
    | none => rw [hq] at hd; simp [dateMatch] at hd
    | some d =>
      rw [hq] at hd
      simp only [dateMatch, decide_eq_true_eq] at hd
      exact ⟨d, rfl, by rw [hd], by rw [hd], by rw [hd]⟩
  · intro h; simp [pointResponse, h, squeezeDiv]
  · intro r h; simp [pointResponse, h, squeezeDiv]
  · intro r h
    have hp : parseRequestDate ("1998-10-1".toList) = some ⟨1998, 10, 1⟩ := by decide
    rw [hp]
    simp only [dateMatch, decide_eq_false_iff_not]
    rw [h]
    decide

/-- Witness instantiating C1: station 10, date 1998-10-15 and the file
`fileW` produce a 200 response with temperature 12.5 °C. -/
theorem point_lookup_exact_date_witness :
    pythonInt ("10".toList) = some 10 ∧
    ∃ resp : PointResponse,
      data fsW ("10".toList) ("1998-10-15".toList) = Except.ok resp ∧
      resp.temperature = TempValue.scalar (celsius 125) := by
  refine ⟨by decide, ?_⟩
  obtain ⟨resp, hok, hst, hdt, hmem, hnil, hone, hnm⟩ :=
    point_lookup_exact_date fsW ("10".toList) ("1998-10-15".toList) 10 fileW (by decide) rfl
  exact ⟨resp, hok, hone ⟨10, 100, 19981015, 125, 0⟩ (by decide)⟩

/-- Claim C3: a requested date string that is not parseable as a calendar
date deterministically yields no match: the handler still returns a normal
response, with a null temperature. -/
theorem unparseable_date_yields_null (fs : FileSystem) (station date : List Char)
    (n : Int) (file : List RawRow)
    (h1 : pythonInt station = some n) (h2 : fs (stationPath n) = some file)
    (h3 : parseRequestDate date = none) :
    data fs station date = Except.ok ⟨station, date, TempValue.null⟩ ∧
    httpStatus (data fs station date) = 200 := by
  have hl := locate_ok h1 h2
  have hr : data fs station date = Except.ok (pointResponse station date file) := by
    simp [data, Except.map, hl]
  constructor
  · rw [hr]
    unfold pointResponse
    rw [matchRows_of_unparsed h3]
    rfl
  · rw [hr]; rfl

/-- Witness instantiating C3: the request string invalid-date does not
parse and the handler answers with a null temperature. -/
theorem unparseable_date_yields_null_witness :
    parseRequestDate ("invalid-date".toList) = none ∧
    data fsW ("10".toList) ("invalid-date".toList) =
      Except.ok ⟨"10".toList, "invalid-date".toList, TempValue.null⟩ :=
  ⟨by decide,
    (unparseable_date_yields_null fsW ("10".toList) ("invalid-date".toList) 10 fileW
      (by decide) rfl (by decide)).1⟩

/-- Claim C7: the full station dump returns exactly the non-sentinel rows
as key-value records whose keys are the original whitespace-bearing column
names, in file order, and an empty sequence (a success, not an error) when
no valid rows exist. -/
theorem full_dump_records (fs : FileSystem) (station : List Char)
    (n : Int) (file : List RawRow)
    (h1 : pythonInt station = some n) (h2 : fs (stationPath n) = some file) :
    ∃ out, all_data fs station = Except.ok out ∧
      out = (cleanRows file).map rowRecordParsed ∧
      (∀ rec ∈ out, rec.map Prod.fst = [" STAID", " SOUID", "    DATE", "   TG", " Q_TG"]) ∧
      (∀ rec ∈ out, ∃ r, r ∈ file ∧ r.tg ≠ -9999 ∧ rec = rowRecordParsed r) ∧
      List.Sublist (cleanRows file) file ∧
      ((∀ r ∈ file, r.tg = -9999) → out = []) := by
  refine ⟨(cleanRows file).map rowRecordParsed, ?_, rfl, ?_, ?_, List.filter_sublist _, ?_⟩
  · simp [all_data, Except.map, locate_ok h1 h2]
  · intro rec hrec
    obtain ⟨r, _, hr⟩ := List.mem_map.mp hrec
    rw [← hr]
    rfl
  · intro rec hrec
    obtain ⟨r, hrm, hr⟩ := List.mem_map.mp hrec
    obtain ⟨hf, hs⟩ := mem_cleanRows.mp hrm
    exact ⟨r, hf, hs, hr.symm⟩
  · intro hall
    have : cleanRows file = [] := by
      unfold cleanRows
      rw [List.filter_eq_nil_iff]
      intro a ha
      simp [hall a ha]
    rw [this]
    rfl

/-- Witness instantiating C7: dumping the three-row file `fileW` keeps its
two non-sentinel rows with the literal column names as keys. -/
theorem full_dump_records_witness :
    ∃ out, all_data fsW ("10".toList) = Except.ok out ∧
      out = (cleanRows fileW).map rowRecordParsed ∧
      (∀ rec ∈ out, rec.map Prod.fst = [" STAID", " SOUID", "    DATE", "   TG", " Q_TG"]) := by
  obtain ⟨out, hok, heq, hkeys, _, _, _⟩ :=
    full_dump_records fsW ("10".toList) 10 fileW (by decide) rfl
  exact ⟨out, hok, heq, hkeys⟩

/-- Claim C6: the annual dump selects exactly the rows whose textual date
representation begins with the requested string, a pure string-prefix match
(a request for 199 matches both 1998 and 1990 dates), in original file
order. -/
theorem annual_prefix_rows (fs : FileSystem) (station year : List Char)
    (n : Int) (file : List RawRow)
    (h1 : pythonInt station = some n) (h2 : fs (stationPath n) = some file) :
    yearly fs station year = Except.ok ((yearRows file year).map rowRecordStr) ∧
    (∀ r : RawRow, r ∈ yearRows file year ↔
      r ∈ file ∧ strStartsWith (natChars r.dateRaw) year = true) ∧
    List.Sublist (yearRows file year) file ∧
    strStartsWith (natChars 19981015) ("199".toList) = true ∧
    strStartsWith (natChars 19900101) ("199".toList) = true ∧
    strStartsWith (natChars 20000101) ("199".toList) = false := by
  refine ⟨?_, ?_, List.filter_sublist _, by decide, by decide, by decide⟩
  · simp [yearly, Except.map, locate_ok h1 h2]
  · intro r
    simp [yearRows, List.mem_filter]

/-- Witness instantiating C6: with the mixed-year file `fileD` under
station 7, a request for the 3-digit year 199 returns both rows. -/
theorem annual_prefix_rows_witness :
    yearly fsD ("7".toList) ("199".toList) =
      Except.ok ((yearRows fileD ("199".toList)).map rowRecordStr) ∧
    strStartsWith (natChars 19981015) ("199".toList) = true := by
  have h := annual_prefix_rows fsD ("7".toList) ("199".toList) 7 fileD (by decide) rfl
  exact ⟨h.1, h.2.2.2.1⟩

/-- Claim C2: the point lookup and the full dump never include a row whose
raw temperature is -9999 in their output, while the annual dump does not
filter the sentinel and can return such rows. -/
theorem sentinel_asymmetry :
    (∀ (fs : FileSystem) (station date : List Char) (n : Int) (file : List RawRow)
      (resp : PointResponse),
      pythonInt station = some n → fs (stationPath n) = some file →
      data fs station date = Except.ok resp →
      ∀ q ∈ tempList resp.temperature, ∃ r, r ∈ file ∧ r.tg ≠ -9999 ∧ q = celsius r.tg) ∧
    (∀ (fs : FileSystem) (station : List Char) (n : Int) (file : List RawRow)
      (out : List (List (String × Value))),
      pythonInt station = some n → fs (stationPath n) = some file →
      all_data fs station = Except.ok out →
      ∀ rec ∈ out, ∃ r, r ∈ file ∧ r.tg ≠ -9999 ∧ rec = rowRecordParsed r) ∧
    (∃ (fs : FileSystem) (station year : List Char) (out : List (List (String × Value))),
      yearly fs station year = Except.ok out ∧
      ∃ rec ∈ out, ("   TG", Value.vInt (-9999)) ∈ rec) := by
  refine ⟨?_, ?_, ?_⟩
  · intro fs station date n file resp h1 h2 hok q hq
    have hr : data fs station date = Except.ok (pointResponse station date file) := by
      simp [data, Except.map, locate_ok h1 h2]
    rw [hr] at hok
    have hresp : resp = pointResponse station date file := by
      cases hok; rfl
    rw [hresp] at hq
    obtain ⟨v, hv, hqv⟩ := mem_tempList_squeezeDiv hq
    obtain ⟨r, hrm, hrv⟩ := List.mem_map.mp hv
    obtain ⟨hf, hs, _⟩ := mem_matchRows.mp hrm
    exact ⟨r, hf, hs, by rw [hqv, hrv]⟩
  · intro fs station n file out h1 h2 hok rec hrec
    have hr : all_data fs station = Except.ok ((cleanRows file).map rowRecordParsed) := by
      simp [all_data, Except.map, locate_ok h1 h2]
    rw [hr] at hok
    have hout : out = (cleanRows file).map rowRecordParsed := by
      cases hok; rfl
    rw [hout] at hrec
    obtain ⟨r, hrm, hrv⟩ := List.mem_map.mp hrec
    obtain ⟨hf, hs⟩ := mem_cleanRows.mp hrm
    exact ⟨r, hf, hs, hrv.symm⟩
  · refine ⟨fsY, "1".toList, "2000".toList, (yearRows fileY ("2000".toList)).map rowRecordStr,
      rfl, rowRecordStr ⟨1, 1, 20000101, -9999, 9⟩, by decide, by decide⟩

/-- Witness instantiating C2: the cleaned full dump of `fileW` only
contains records coming from non-sentinel rows of the file. -/
theorem sentinel_asymmetry_witness :
    ∃ r, r ∈ fileW ∧ r.tg ≠ -9999 ∧
      rowRecordParsed ⟨10, 100, 19981015, 125, 0⟩ = rowRecordParsed r := by
  have h := sentinel_asymmetry.2.1 fsW ("10".toList) 10 fileW
    ((cleanRows fileW).map rowRecordParsed) (by decide) rfl rfl
  exact h (rowRecordParsed ⟨10, 100, 19981015, 125, 0⟩) (by decide)

/-- Claim C10: when two or more cleaned rows match the requested date, the
point lookup does not reduce to the first match: squeeze leaves the whole
collection, so the temperature is the full series of tenths-values divided
by 10, and a scalar arises exactly when one cleaned row matches. -/
theorem duplicate_dates_series (fs : FileSystem) (station date : List Char)
    (n : Int) (file : List RawRow)
    (h1 : pythonInt station = some n) (h2 : fs (stationPath n) = some file)
    (hlen : 2 ≤ (matchRows file date).length) :
    (∃ resp : PointResponse,
      data fs station date = Except.ok resp ∧
      resp.temperature = TempValue.series ((matchRows file date).map (fun r => celsius r.tg)) ∧
      ∀ q : ℚ, resp.temperature ≠ TempValue.scalar q) ∧
    (∀ (fs2 : FileSystem) (st2 d2 : List Char) (n2 : Int) (file2 : List RawRow)
      (resp2 : PointResponse) (q : ℚ),
      pythonInt st2 = some n2 → fs2 (stationPath n2) = some file2 →
      data fs2 st2 d2 = Except.ok resp2 → resp2.temperature = TempValue.scalar q →
      (matchRows file2 d2).length = 1) := by
  constructor
  · have hser : squeezeDiv ((matchRows file date).map (fun r => r.tg)) =
        TempValue.series ((matchRows file date).map (fun r => celsius r.tg)) := by
      rw [squeezeDiv_of_two (by simpa using hlen), List.map_map]
      rfl
    refine ⟨pointResponse station date file, ?_, ?_, ?_⟩
    · simp [data, Except.map, locate_ok h1 h2]
    · exact hser
    · intro q hq
      have := hser.symm.trans hq
      simp at this
  · intro fs2 st2 d2 n2 file2 resp2 q hp2 hf2 hok hsc
    have hr : data fs2 st2 d2 = Except.ok (pointResponse st2 d2 file2) := by
      simp [data, Except.map, locate_ok hp2 hf2]
    rw [hr] at hok
    have hresp : resp2 = pointResponse st2 d2 file2 := by
      cases hok; rfl
    rw [hresp] at hsc
    have := squeezeDiv_scalar_length hsc
    simpa using this

/-- Witness instantiating C10: `fileD` has two non-sentinel rows dated
1999-01-01, and the response for that date carries both values. -/
theorem duplicate_dates_series_witness :
    2 ≤ (matchRows fileD ("1999-01-01".toList)).length ∧
    ∃ resp : PointResponse,
      data fsD ("7".toList) ("1999-01-01".toList) = Except.ok resp ∧
      resp.temperature = TempValue.series [celsius 100, celsius 110] := by
  refine ⟨by decide, ?_⟩
  obtain ⟨⟨resp, hok, hser, _⟩, _⟩ :=
    duplicate_dates_series fsD ("7".toList) ("1999-01-01".toList) 7 fileD
      (by decide) rfl (by decide)
  refine ⟨resp, hok, ?_⟩
  rw [hser]
  rfl

/-- Claim C4 counterexample: for the well-formed station id 999999 whose
file does not exist, the point lookup raises an uncaught
FileNotFoundError, which Flask surfaces as an HTTP 500 server error, not a
client error — contradicting the claim that a StationNotFound error is
surfaced as a client error. -/
theorem station_not_found_counterexample :
    data (fun _ => none) ("999999".toList) ("2000-01-01".toList) =
      Except.error PyError.fileNotFound ∧
    httpStatus (data (fun _ => none) ("999999".toList) ("2000-01-01".toList)) = 500 ∧
    isClientError
      (httpStatus (data (fun _ => none) ("999999".toList) ("2000-01-01".toList))) = false :=
  ⟨rfl, rfl, rfl⟩

/-- Claim C4 amended: for every well-formed station id whose data file does
not exist, each data endpoint raises an uncaught file-not-found error that
Flask surfaces as an HTTP 500 server error (not a client error), and this
outcome is distinguished from the success case of an existing station file
(even one with zero qualifying rows), which yields a 200 response. -/
theorem station_missing_is_server_error (fs : FileSystem) (station date year : List Char)
    (n : Int) (h1 : pythonInt station = some n) (hm : fs (stationPath n) = none) :
    data fs station date = Except.error PyError.fileNotFound ∧
    all_data fs station = Except.error PyError.fileNotFound ∧
    yearly fs station year = Except.error PyError.fileNotFound ∧
    httpStatus (data fs station date) = 500 ∧
    isClientError (httpStatus (data fs station date)) = false ∧
    (∀ (fs2 : FileSystem) (file : List RawRow), fs2 (stationPath n) = some file →
      httpStatus (data fs2 station date) = 200 ∧
      httpStatus (all_data fs2 station) = 200 ∧
      httpStatus (yearly fs2 station year) = 200) := by
  have hl : locate fs station = Except.error PyError.fileNotFound := by
    simp [locate, h1, hm]
  refine ⟨?_, ?_, ?_, ?_, ?_, ?_⟩
  · simp [data, Except.map, hl]
  · simp [all_data, Except.map, hl]
  · simp [yearly, Except.map, hl]
  · simp [data, Except.map, hl, httpStatus]
  · simp [data, Except.map, hl, httpStatus, isClientError]
  · intro fs2 file h
    have hl2 := locate_ok h1 h
    exact ⟨by simp [data, Except.map, hl2, httpStatus],
      by simp [all_data, Except.map, hl2, httpStatus],
      by simp [yearly, Except.map, hl2, httpStatus]⟩

/-- Witness instantiating the amended C4: station 999999 with an empty
file system gives a 500; the same id with an existing zero-row file gives
a 200. -/
theorem station_missing_is_server_error_witness :
    data (fun _ => none) ("999999".toList) ("2000-01-01".toList) =
      Except.error PyError.fileNotFound ∧
    httpStatus (data fs9 ("999999".toList) ("2000-01-01".toList)) = 200 := by
  have h := station_missing_is_server_error (fun _ => none) ("999999".toList)
    ("2000-01-01".toList) ("2000".toList) 999999 (by decide) rfl
  exact ⟨h.1, (h.2.2.2.2.2 fs9 [] rfl).1⟩

/-- Claim C5 counterexample: a non-numeric station segment raises an
uncaught ValueError surfaced as an HTTP 500 server error, not a client
error; and a negative station segment such as -5 is parsed successfully by
`int()` (so no InvalidStationId error exists for it) and instead fails at
the file stage — contradicting the claim on both counts. -/
theorem invalid_station_counterexample :
    pythonInt ("abc".toList) = none ∧
    data (fun _ => none) ("abc".toList) ("2000-01-01".toList) =
      Except.error PyError.valueError ∧
    httpStatus (data (fun _ => none) ("abc".toList) ("2000-01-01".toList)) = 500 ∧
    isClientError
      (httpStatus (data (fun _ => none) ("abc".toList) ("2000-01-01".toList))) = false ∧
    pythonInt ("-5".toList) = some (-5) ∧
    data (fun _ => none) ("-5".toList) ("2000-01-01".toList) =
      Except.error PyError.fileNotFound :=
  ⟨by decide, rfl, rfl, rfl, by decide, rfl⟩

/-- Claim C5 amended: a station segment that `int()` cannot parse makes
every endpoint raise an uncaught ValueError that Flask surfaces as an HTTP
500 server error (not a client error); a segment that parses — including a
negative number — never produces that error and proceeds to the file
stage. -/
theorem invalid_station_is_server_error (fs : FileSystem) (station date year : List Char)
    (h : pythonInt station = none) :
    data fs station date = Except.error PyError.valueError ∧
    all_data fs station = Except.error PyError.valueError ∧
    yearly fs station year = Except.error PyError.valueError ∧
    httpStatus (data fs station date) = 500 ∧
    isClientError (httpStatus (data fs station date)) = false ∧
    (∀ (fs2 : FileSystem) (st2 d2 : List Char) (n2 : Int), pythonInt st2 = some n2 →
      data fs2 st2 d2 ≠ Except.error PyError.valueError) := by
  have hl : locate fs station = Except.error PyError.valueError := by
    simp [locate, h]
  refine ⟨?_, ?_, ?_, ?_, ?_, ?_⟩
  · simp [data, Except.map, hl]
  · simp [all_data, Except.map, hl]
  · simp [yearly, Except.map, hl]
  · simp [data, Except.map, hl, httpStatus]
  · simp [data, Except.map, hl, httpStatus, isClientError]
  · intro fs2 st2 d2 n2 hp2
    cases hf : fs2 (stationPath n2) with
    | none =>
      have : locate fs2 st2 = Except.error PyError.fileNotFound := by
        simp [locate, hp2, hf]
      simp [data, Except.map, this]
    | some file =>
      have := locate_ok hp2 hf
      simp [data, Except.map, this]

/-- Witness instantiating the amended C5: the segment abc gives the 500
ValueError outcome while the parseable negative segment -5 does not. -/
theorem invalid_station_is_server_error_witness :
    httpStatus (data (fun _ => none) ("abc".toList) ("2000-02-02".toList)) = 500 ∧
    data (fun _ => none) ("-5".toList) ("2000-02-02".toList) ≠
      Except.error PyError.valueError := by
  have h := invalid_station_is_server_error (fun _ => none) ("abc".toList)
    ("2000-02-02".toList) ("2000".toList) (by decide)
  exact ⟨h.2.2.2.1, h.2.2.2.2.2 (fun _ => none) ("-5".toList) ("2000-02-02".toList) (-5)
    (by decide)⟩

/-- Claim C8 counterexample: a cleaned row with raw temperature -99990
(which is not the sentinel, so the filter keeps it) is reported as
-99990 / 10 = -9999, which equals the sentinel value — contradicting the
claim that the reported value never equals the sentinel. -/
theorem sentinel_scaled_counterexample :
    ((-99990 : Int) ≠ -9999) ∧
    data fsS ("1".toList) ("2000-01-01".toList) =
      Except.ok ⟨"1".toList, "2000-01-01".toList, TempValue.scalar (celsius (-99990))⟩ ∧
    celsius (-99990) = ((-9999 : Int) : ℚ) := by
  refine ⟨by decide, rfl, ?_⟩
  norm_num [celsius]

/-- Claim C8 amended: for every raw temperature value v other than -9999,
the reported temperature is exactly v / 10 with no additional rounding; it
never equals the value the dropped sentinel row would have produced, and it
equals the sentinel number -9999 only in the case v = -99990. -/
theorem celsius_exact_division (v : Int) (h : v ≠ -9999) :
    celsius v = (v : ℚ) / 10 ∧
    celsius v ≠ celsius (-9999) ∧
    (celsius v = ((-9999 : Int) : ℚ) ↔ v = -99990) := by
  refine ⟨rfl, ?_, ?_, ?_⟩
  · intro hc
    apply h
    have hv : (v : ℚ) = ((-9999 : Int) : ℚ) := by
      field_simp [celsius] at hc
      exact_mod_cast hc
    exact_mod_cast hv
  · intro hc
    have hv : (v : ℚ) = ((-99990 : Int) : ℚ) := by
      field_simp [celsius] at hc
      push_cast
      exact_mod_cast hc
    exact_mod_cast hv
  · intro hv
    rw [hv]
    norm_num [celsius]

/-- Witness instantiating the amended C8: raw value 125 is reported as
exactly 12.5 and is unrelated to the sentinel. -/
theorem celsius_exact_division_witness :
    (125 : Int) ≠ -9999 ∧
    (celsius 125 = ((125 : Int) : ℚ) / 10 ∧
      celsius 125 ≠ celsius (-9999) ∧
      (celsius 125 = ((-9999 : Int) : ℚ) ↔ (125 : Int) = -99990)) :=
  ⟨by decide, celsius_exact_division 125 (by decide)⟩

/-! Digit-string lemmas for the station-id round trip. -/

theorem digitVal_digitChar {d : Nat} (h : d < 10) : digitVal (digitChar d) = some d := by
  interval_cases d <;> decide

theorem parseNatAux_append (a : Nat) (l1 l2 : List Char) :
    parseNatAux (some a) (l1 ++ l2) =
      match parseNatAux (some a) l1 with
      | some b => parseNatAux (some b) l2
      | none => none := by
  induction l1 generalizing a with
  | nil => rfl
  | cons c t ih =>
    cases hd : digitVal c with
    | some d =>
      simp only [List.cons_append, parseNatAux, hd]
      exact ih (10 * a + d)
    | none =>
      simp only [List.cons_append, parseNatAux, hd]

theorem parseNatAux_natCharsAux (fuel : Nat) :
    ∀ n a : Nat, n < 10 ^ fuel →
      parseNatAux (some a) (natCharsAux fuel n) =
        some (a * 10 ^ (natCharsAux fuel n).length + n) := by
  induction fuel with
  | zero =>
    intro n a h
    have hn : n = 0 := by
      have : n < 1 := by simpa using h
      omega
    subst hn
    simp [natCharsAux, parseNatAux]
  | succ f ih =>
    intro n a h
    by_cases h0 : n = 0
    · subst h0
      simp [natCharsAux, parseNatAux]
    · have hdiv : n / 10 < 10 ^ f := by
        rw [Nat.div_lt_iff_lt_mul (by norm_num)]
        calc n < 10 ^ (f + 1) := h
          _ = 10 ^ f * 10 := by rw [pow_succ]
      have hd : digitVal (digitChar (n % 10)) = some (n % 10) :=
        digitVal_digitChar (Nat.mod_lt _ (by norm_num))
      simp only [natCharsAux, if_neg h0]
      rw [parseNatAux_append, ih (n / 10) a hdiv]
      simp only [parseNatAux, hd, List.length_append, List.length_singleton]
      congr 1
      have hnm : 10 * (n / 10) + n % 10 = n := by omega
      calc 10 * (a * 10 ^ (natCharsAux f (n / 10)).length + n / 10) + n % 10
          = a * (10 ^ (natCharsAux f (n / 10)).length * 10) + (10 * (n / 10) + n % 10) := by
            ring
        _ = a * 10 ^ ((natCharsAux f (n / 10)).length + 1) + n := by
            rw [hnm, pow_succ]

theorem natChars_ne_nil (n : Nat) : natChars n ≠ [] := by
  by_cases h : n = 0
  · subst h; simp [natChars]
  · simp [natChars, natCharsAux, h]

theorem mem_natCharsAux_digit {f : Nat} :
    ∀ {n : Nat} {c : Char}, c ∈ natCharsAux f n → 48 ≤ c.toNat ∧ c.toNat ≤ 57 := by
  induction f with
  | zero =>
    intro n c hc
    simp [natCharsAux] at hc
  | succ f ih =>
    intro n c hc
    by_cases h0 : n = 0
    · subst h0; simp [natCharsAux] at hc
    · simp only [natCharsAux, if_neg h0, List.mem_append, List.mem_singleton] at hc
      rcases hc with hc | hc
      · exact ih hc
      · subst hc
        have h10 : n % 10 < 10 := Nat.mod_lt _ (by norm_num)
        set m := n % 10 with hm
        interval_cases m <;> decide

theorem mem_natChars_digit {n : Nat} {c : Char} (hc : c ∈ natChars n) :
    48 ≤ c.toNat ∧ c.toNat ≤ 57 := by
  by_cases h : n = 0
  · subst h
    simp [natChars] at hc
    subst hc
    decide
  · rw [natChars, if_neg h] at hc
    exact mem_natCharsAux_digit hc

theorem parseNatChars_eq (cs : List Char) (h : cs ≠ []) :
    parseNatChars cs = parseNatAux (some 0) cs := by
  cases cs with
  | nil => exact absurd rfl h
  | cons c t => rfl

theorem parseNatAux_zeros (k : Nat) (l : List Char) :
    parseNatAux (some 0) (List.replicate k '0' ++ l) = parseNatAux (some 0) l := by
  induction k with
  | zero => rfl
  | succ k ih =>
    have h0 : digitVal '0' = some 0 := by decide
    simp only [List.replicate_succ, List.cons_append, parseNatAux, h0]
    simpa using ih

theorem parseNatChars_pad (k m : Nat) :
    parseNatChars (List.replicate k '0' ++ natChars m) = some m := by
  have hne : List.replicate k '0' ++ natChars m ≠ [] := by
    intro h
    exact natChars_ne_nil m (List.append_eq_nil.mp h).2
  rw [parseNatChars_eq _ hne, parseNatAux_zeros]
  by_cases h : m = 0
  · subst h; decide
  · rw [natChars, if_neg h]
    have hlt : m < 10 ^ (m + 1) := by
      calc m < 10 ^ m := Nat.lt_pow_self (by norm_num) m
        _ ≤ 10 ^ (m + 1) := Nat.pow_le_pow_right (by norm_num) (Nat.le_succ m)
    rw [parseNatAux_natCharsAux (m + 1) m 0 hlt]
    simp

theorem pythonInt_digits (cs : List Char) (hne : cs ≠ [])
    (hd : ∀ c ∈ cs, 48 ≤ c.toNat ∧ c.toNat ≤ 57) :
    pythonInt cs = (parseNatChars cs).map (fun k => (k : Int)) := by
  cases cs with
  | nil => exact absurd rfl hne
  | cons c t =>
    have hc := hd c (by simp)
    have h1 : c ≠ '-' := by
      intro h; subst h; revert hc; decide
    have h2 : c ≠ '+' := by
      intro h; subst h; revert hc; decide
    simp [pythonInt, h1, h2]

/-- Claim C9: for every station id string that parses as a non-negative
integer, formatting the id as the 6-digit zero-padded identifier embedded
in the file name and re-parsing that zero-padded string yields the same
numeric id. -/
theorem station_id_roundtrip (s : List Char) (n : Int)
    (_hp : pythonInt s = some n) (hn : 0 ≤ n) :
    pythonInt (pad6 n) = some n := by
  have hneg : ¬ n < 0 := not_lt.mpr hn
  rw [pad6, if_neg hneg]
  have hchars : ∀ c ∈ List.replicate (6 - (natChars n.natAbs).length) '0' ++ natChars n.natAbs,
      48 ≤ c.toNat ∧ c.toNat ≤ 57 := by
    intro c hc
    rcases List.mem_append.mp hc with h | h
    · have hc0 : c = '0' := List.eq_of_mem_replicate h
      subst hc0; decide
    · exact mem_natChars_digit h
  have hne : List.replicate (6 - (natChars n.natAbs).length) '0' ++ natChars n.natAbs ≠ [] := by
    intro h
    exact natChars_ne_nil n.natAbs (List.append_eq_nil.mp h).2
  rw [pythonInt_digits _ hne hchars, parseNatChars_pad]
  simpa using congrArg some (Int.natAbs_of_nonneg hn)

/-- Witness instantiating C9: the id string 010 parses to 10, is formatted
as 000010 inside the file name, and re-parses to the same 10. -/
theorem station_id_roundtrip_witness :
    pythonInt ("010".toList) = some 10 ∧ (0 : Int) ≤ 10 ∧ pythonInt (pad6 10) = some 10 :=
  ⟨by decide, by decide, station_id_roundtrip ("010".toList) 10 (by decide) (by decide)⟩

end WeatherAPI
